import Mathlib

/-!
Verification development for the FastAPI auth gateway
(`app/token_generator.py`, `app/security.py`, `app/cores.py`,
`app/routes.py`, `app/config.py`).

The Python code is shallowly embedded: JWTs become structured `Token`
values whose signature is modelled symbolically by the numeric id of the
signing key; clock reads (`datetime.now`) and fresh UUIDs become explicit
parameters; network effects (the JWKS fetch, the Supabase admin lookup)
become explicit inputs describing the remote response; exceptions become
`Except`.
-/

namespace AuthGateway

/-- JSON-like values appearing in the metadata dicts the Python code builds
(strings, booleans, numbers, lists of strings, and null). -/
inductive JVal where
  | null : JVal
  | jstr : String → JVal
  | jbool : Bool → JVal
  | jint : Int → JVal
  | jstrList : List String → JVal
deriving Repr, DecidableEq

/-- A metadata dict (`user_metadata` / `app_metadata`), as an ordered
association list. -/
abbrev Meta := List (String × JVal)

/-- The fields of `app/config.py` `Settings` that the embedded code reads.
`JWT_PRIVATE_KEY` is abstracted to the numeric id of the signing key
(`privateKeyId`) together with the `kid` stored in the private JWK
(`privateKid`); the signature itself is symbolic. -/
structure Settings where
  SUPABASE_JWT_ISSUER : String
  SUPABASE_JWT_AUDIENCE : String
  JWT_EXPIRES_IN : Int
  JWT_REFRESH_EXPIRES_IN_DAYS : Int
  PROXY_TARGET_URL : String
  privateKeyId : Nat
  privateKid : String
deriving Repr, DecidableEq

/-- A decoded JWT payload. `none` in an `Option` field models a claim that
is absent (or JSON null, where the Python code cannot distinguish the two
via `dict.get`). `iss`, `aud`, `exp`, `iat` are total because every token
built by this code base sets them. -/
structure Payload where
  iss : String
  sub : Option String
  aud : String
  exp : Int
  iat : Int
  email : Option String := none
  phone : Option String := none
  app_metadata : Option Meta := none
  user_metadata : Option Meta := none
  role : Option String := none
  aal : Option String := none
  amr : Option (List (String × Int)) := none
  session_id : Option String := none
  is_anonymous : Option Bool := none
  token_type : Option String := none
deriving Repr, DecidableEq

/-- A signed JWT: header (`alg` and optional `kid`), payload, and a
symbolic signature recording which private key produced it.  `jwt.encode`
always yields `sigKeyId = privateKeyId` of the key it was given; an
attacker-forged token is any other value of this type. -/
structure Token where
  headerKid : Option String
  alg : String
  payload : Payload
  sigKeyId : Nat
deriving Repr, DecidableEq

/-- Python truthiness of an optional string (`if not session_id`): `None`
and the empty string are falsy. -/
def truthyOptStr : Option String → Bool
  | none => false
  | some s => !(s = "")

/-- The default `user_metadata` built in `generate_access_token` when the
caller passes `None`. -/
def defaultUserMetadata (email : Option String) (user_id : Option String) : Meta :=
  [("email", match email with | none => JVal.null | some e => JVal.jstr e),
   ("email_verified", JVal.jbool true),
   ("phone_verified", JVal.jbool false),
   ("sub", match user_id with | none => JVal.null | some u => JVal.jstr u)]

/-- The default `app_metadata` built in `generate_access_token` when the
caller passes `None`. -/
def defaultAppMetadata : Meta :=
  [("provider", JVal.jstr "email"), ("providers", JVal.jstrList ["email"])]

/-- `generate_access_token` (`app/token_generator.py`).  `now` is the
clock read, `freshUuid` the value `str(uuid.uuid4())` would produce when
the session id argument is falsy. -/
def generate_access_token (cfg : Settings) (now : Int) (freshUuid : String)
    (user_id : Option String) (email : Option String) (role : String)
    (user_metadata : Option Meta) (app_metadata : Option Meta)
    (session_id : Option String) (expires_in_seconds : Int) : Token :=
  let exp_time : Int := now + expires_in_seconds
  let sid : String :=
    match session_id with
    | none => freshUuid
    | some s => if s = "" then freshUuid else s
  let um : Meta := user_metadata.getD (defaultUserMetadata email user_id)
  let am : Meta := app_metadata.getD defaultAppMetadata
  { headerKid := some cfg.privateKid
    alg := "ES256"
    payload :=
      { iss := cfg.SUPABASE_JWT_ISSUER
        sub := user_id
        aud := cfg.SUPABASE_JWT_AUDIENCE
        exp := exp_time
        iat := now
        email := email
        phone := some ""
        app_metadata := some am
        user_metadata := some um
        role := some role
        aal := some "aal1"
        amr := some [("password", now)]
        session_id := some sid
        is_anonymous := some false
        token_type := none }
    sigKeyId := cfg.privateKeyId }

/-- `generate_refresh_token` (`app/token_generator.py`): minimal claims
plus `token_type = "refresh"`; lifetime counted in days. -/
def generate_refresh_token (cfg : Settings) (now : Int) (freshUuid : String)
    (user_id : String) (session_id : Option String) (expires_in_days : Int) : Token :=
  let sid : String :=
    match session_id with
    | none => freshUuid
    | some s => if s = "" then freshUuid else s
  { headerKid := some cfg.privateKid
    alg := "ES256"
    payload :=
      { iss := cfg.SUPABASE_JWT_ISSUER
        sub := some user_id
        aud := cfg.SUPABASE_JWT_AUDIENCE
        exp := now + expires_in_days * 86400
        iat := now
        session_id := some sid
        token_type := some "refresh" }
    sigKeyId := cfg.privateKeyId }

/-- The dict returned by `generate_token_pair`. -/
structure TokenPair where
  access_token : Token
  refresh_token : Token
  expires_in : Int
  token_type : String
  session_id : String
deriving Repr, DecidableEq

/-- `generate_token_pair` (`app/token_generator.py`): one fresh session id
(`freshSession`) shared by both tokens. -/
def generate_token_pair (cfg : Settings) (now : Int) (freshSession : String)
    (user_id : String) (email : Option String) (role : String)
    (user_metadata : Option Meta) (app_metadata : Option Meta)
    (access_token_expires_in : Int) (refresh_token_expires_in_days : Int) : TokenPair :=
  let session_id := freshSession
  { access_token :=
      generate_access_token cfg now session_id (some user_id) email role
        user_metadata app_metadata (some session_id) access_token_expires_in
    refresh_token :=
      generate_refresh_token cfg now session_id user_id (some session_id)
        refresh_token_expires_in_days
    expires_in := access_token_expires_in
    token_type := "bearer"
    session_id := session_id }

/-- One entry of the remote JWKS: a `kid` naming a public key, the key
itself abstracted to the numeric id of the key pair it belongs to. -/
structure Jwk where
  kid : String
  keyId : Nat
deriving Repr, DecidableEq

/-- The JSON web key set served by the issuer. -/
abbrev Jwks := List Jwk

/-- The process-wide state of the `lru_cache(maxsize=1)` wrapper around
`get_jwks`: the cached result, if any, plus a count of network fetches
performed (for stating how often the remote endpoint is hit).  A failed
fetch raises and is not cached by `lru_cache`. -/
structure JwksState where
  cache : Option Jwks
  fetchCount : Nat
deriving Repr, DecidableEq

/-- `get_jwks` (`app/security.py`) under its `lru_cache(maxsize=1)`
decorator.  `remote` is what the network would return: `none` models a
request failure. -/
def get_jwks (remote : Option Jwks) (st : JwksState) :
    Except String Jwks × JwksState :=
  match st.cache with
  | some jwks => (Except.ok jwks, st)
  | none =>
    match remote with
    | some jwks =>
      (Except.ok jwks, { cache := some jwks, fetchCount := st.fetchCount + 1 })
    | none =>
      (Except.error "Failed to fetch JWKs from Supabase",
       { st with fetchCount := st.fetchCount + 1 })

/-- The `for jwk in jwks.get("keys", [])` loop of `get_public_key_by_kid`:
first entry whose `kid` matches. -/
def findJwk (jwks : Jwks) (kid : String) : Option Nat :=
  match jwks with
  | [] => none
  | j :: rest => if j.kid = kid then some j.keyId else findJwk rest kid

/-- `get_public_key_by_kid` (`app/security.py`): consult the (cached)
JWKS and return the key matching `kid`, raising when absent. -/
def get_public_key_by_kid (remote : Option Jwks) (st : JwksState) (kid : String) :
    Except String Nat × JwksState :=
  match get_jwks remote st with
  | (Except.error e, st') => (Except.error e, st')
  | (Except.ok jwks, st') =>
    match findJwk jwks kid with
    | some keyId => (Except.ok keyId, st')
    | none => (Except.error ("No JWK found for kid: " ++ kid), st')

/-- `get_token_kid` (`app/security.py`): read `kid` from the unverified
header. -/
def get_token_kid (tok : Token) : Option String :=
  tok.headerKid

/-- The distinct PyJWT exceptions `jwt.decode` can raise that are
reachable in this model. -/
inductive JwtError where
  | invalidAlgorithm : JwtError
  | invalidSignature : JwtError
  | expiredSignature : JwtError
  | invalidAudience : JwtError
  | invalidIssuer : JwtError
deriving Repr, DecidableEq

/-- The message of the PyJWT `InvalidAlgorithmError` raised when the
token header names an algorithm outside the allowed list. -/
def algNotAllowedMsg : String := "The specified alg value is not allowed"

/-- `jwt.decode(token, key, algorithms=["ES256"], audience=..., issuer=...)`
with all verifications on, as called by `verify_token`.  PyJWT checks the
allowed-algorithm list and the signature first, then expiry (with its
default leeway of 0: expired when `exp` is at or before `now`), then
audience, then issuer. -/
def jwtDecodeVerify (cfg : Settings) (now : Int) (publicKeyId : Nat)
    (tok : Token) : Except JwtError Payload :=
  if tok.alg ≠ "ES256" then Except.error JwtError.invalidAlgorithm
  else if tok.sigKeyId ≠ publicKeyId then Except.error JwtError.invalidSignature
  else if tok.payload.exp ≤ now then Except.error JwtError.expiredSignature
  else if tok.payload.aud ≠ cfg.SUPABASE_JWT_AUDIENCE then Except.error JwtError.invalidAudience
  else if tok.payload.iss ≠ cfg.SUPABASE_JWT_ISSUER then Except.error JwtError.invalidIssuer
  else Except.ok tok.payload

/-- The FastAPI `HTTPException` surfaced to the client: status code and
detail message. -/
structure HTTPError where
  status_code : Nat
  detail : String
deriving Repr, DecidableEq

/-- The dict `verify_token` returns on success (the normalized identity
record). -/
structure Identity where
  sub : Option String
  email : Option String
  role : Option String
  aud : Option String
  iss : Option String
  exp : Option Int
  iat : Option Int
  user_metadata : Meta
  app_metadata : Meta
  session_id : Option String
deriving Repr, DecidableEq

/-- `verify_token` (`app/security.py`).  Note two behaviours of the
source that the model keeps: (a) the `HTTPException` raised for a missing
kid inside the `try` block is itself caught by the final
`except Exception` handler, so the client sees the generic
"Could not validate credentials" detail; the same handler absorbs the
unknown-kid exception from `get_public_key_by_kid` and a failed JWKS
fetch; (b) there is no token-type check anywhere in this function. -/
def verify_token (cfg : Settings) (remote : Option Jwks) (st : JwksState)
    (now : Int) (tok : Token) : Except HTTPError Identity × JwksState :=
  match get_token_kid tok with
  | none => (Except.error ⟨401, "Could not validate credentials"⟩, st)
  | some token_kid =>
    if token_kid = "" then
      (Except.error ⟨401, "Could not validate credentials"⟩, st)
    else
      match get_public_key_by_kid remote st token_kid with
      | (Except.error _, st') =>
        (Except.error ⟨401, "Could not validate credentials"⟩, st')
      | (Except.ok publicKeyId, st') =>
        match jwtDecodeVerify cfg now publicKeyId tok with
        | Except.ok payload =>
          (Except.ok
            { sub := payload.sub
              email := payload.email
              role := payload.role
              aud := some payload.aud
              iss := some payload.iss
              exp := some payload.exp
              iat := some payload.iat
              user_metadata := payload.user_metadata.getD []
              app_metadata := payload.app_metadata.getD []
              session_id := payload.session_id }, st')
        | Except.error JwtError.expiredSignature =>
          (Except.error ⟨401, "Token has expired"⟩, st')
        | Except.error JwtError.invalidAudience =>
          (Except.error ⟨401, "Invalid token audience"⟩, st')
        | Except.error JwtError.invalidIssuer =>
          (Except.error ⟨401, "Invalid token issuer"⟩, st')
        | Except.error JwtError.invalidSignature =>
          (Except.error ⟨401, "Invalid token: Signature verification failed"⟩, st')
        | Except.error JwtError.invalidAlgorithm =>
          (Except.error ⟨401, "Invalid token: " ++ algNotAllowedMsg⟩, st')

/-- The user record returned by the Supabase admin lookup
(`supabase.auth.admin.get_user_by_id`), when it succeeds and carries a
user. -/
structure SupabaseUser where
  email : Option String
  user_metadata : Option Meta
  app_metadata : Option Meta
  role : Option String
deriving Repr, DecidableEq

/-- The dict returned by `get_user_data_from_supabase`. -/
structure UserData where
  email : Option String
  user_metadata : Meta
  app_metadata : Meta
  role : String
deriving Repr, DecidableEq

/-- Python `x or y` for an optional metadata dict: `None` and the empty
dict are falsy. -/
def metaOr (x : Option Meta) (fallback : Meta) : Meta :=
  match x with
  | none => fallback
  | some m => if m = [] then fallback else m

/-- Python `x or y` for an optional string: `None` and `""` are falsy. -/
def strOr (x : Option String) (fallback : String) : String :=
  match x with
  | none => fallback
  | some s => if s = "" then fallback else s

/-- `get_user_data_from_supabase` (`app/token_generator.py`).
`supabaseResult = none` models the admin lookup raising, or returning no
user: the values fall back to the claims of the decoded token. -/
def get_user_data_from_supabase (decoded : Payload)
    (supabaseResult : Option SupabaseUser) : UserData :=
  let email := decoded.email
  let user_metadata := decoded.user_metadata.getD []
  let app_metadata := decoded.app_metadata.getD []
  let role := decoded.role.getD "authenticated"
  match supabaseResult with
  | none =>
    { email := email, user_metadata := user_metadata,
      app_metadata := app_metadata, role := role }
  | some u =>
    { email := u.email
      user_metadata := metaOr u.user_metadata user_metadata
      app_metadata := metaOr u.app_metadata app_metadata
      role := strOr u.role role }

/-- The dict returned by `generate_access_token_from_refresh_token`. -/
structure RefreshResult where
  access_token : Token
  expires_in : Int
  token_type : String
deriving Repr, DecidableEq

/-- `generate_access_token_from_refresh_token`
(`app/token_generator.py`).  The source decodes the presented token with
`options={"verify_signature": False}` — which in PyJWT also turns off the
expiry, audience and issuer checks — so the only validation performed is
the `token_type` comparison; the `get_token_kid` result is computed and
then unused. -/
def generate_access_token_from_refresh_token (cfg : Settings) (now : Int)
    (freshUuid : String) (supabaseResult : Option SupabaseUser)
    (refresh_token : Token) : Except String RefreshResult :=
  let decoded := refresh_token.payload
  if decoded.token_type ≠ some "refresh" then Except.error "Not a refresh token"
  else
    let user_id := decoded.sub
    let session_id := decoded.session_id
    let data := get_user_data_from_supabase decoded supabaseResult
    let access_token :=
      generate_access_token cfg now freshUuid user_id data.email data.role
        (some data.user_metadata) (some data.app_metadata) session_id 3600
    Except.ok
      { access_token := access_token
        expires_in := 3600
        token_type := "bearer" }

/-- The pieces of the inbound FastAPI `Request` that
`forward_authenticated_user` reads.  Header keys arrive lowercased (as
Starlette normalizes them on the wire). -/
structure InRequest where
  method : String
  query_params : List (String × String)
  headers : List (String × String)
  body : String
deriving Repr, DecidableEq

/-- The outbound request handed to `httpx` by
`forward_authenticated_user`. -/
structure OutboundRequest where
  method : String
  url : String
  params : List (String × String)
  headers : List (String × String)
  body : String
deriving Repr, DecidableEq

/-- `headers.pop(key, None)` on the header dict: drop every pair with
exactly that key. -/
def removeHeader : List (String × String) → String → List (String × String)
  | [], _ => []
  | p :: rest, k => if p.1 = k then removeHeader rest k else p :: removeHeader rest k

/-- `headers[key] = value` on the header dict: replace the first pair
with that key, else append (dict insertion order). -/
def setHeader : List (String × String) → String → String → List (String × String)
  | [], k, v => [(k, v)]
  | (k', v') :: rest, k, v =>
    if k' = k then (k, v) :: rest else (k', v') :: setHeader rest k v

/-- Dict lookup on the header list: value of the first pair with that
key. -/
def lookupHeader : List (String × String) → String → Option String
  | [], _ => none
  | (k', v) :: rest, k => if k' = k then some v else lookupHeader rest k

/-- Python `str(...)` applied to the value `user.get(key, "")` yields for
a key that is always present in the dict built by `verify_token`: the
string itself when the claim is a string, and the literal text `None`
when the claim is null or was absent from the token payload.  The `""`
default of `.get` is dead because `verify_token` always materializes the
key. -/
def pyStr : Option String → String
  | none => "None"
  | some s => s

/-- The request-construction phase of `forward_authenticated_user`
(`app/cores.py`): target URL, copied query params, filtered headers plus
the three injected identity headers, and the replayed body. -/
def forward_authenticated_user_request (cfg : Settings) (req : InRequest)
    (target_path : String) (user : Identity) : OutboundRequest :=
  let target_url := cfg.PROXY_TARGET_URL ++ "/" ++ target_path
  let query_params := req.query_params
  let headers := req.headers
  let headers :=
    (["host", "content-length", "connection", "accept-encoding"]).foldl
      removeHeader headers
  let headers := setHeader headers "X-User-ID" (pyStr user.sub)
  let headers := setHeader headers "X-User-Email" (pyStr user.email)
  let headers := setHeader headers "X-User-Role" (pyStr user.role)
  { method := req.method
    url := target_url
    params := query_params
    headers := headers
    body := req.body }

/-- The path normalization done by `proxy_endpoint` (`app/routes.py`)
before calling the forwarder: one leading slash stripped, not
iteratively. -/
def stripLeadingSlashOnce (p : String) : String :=
  if p.startsWith "/" then p.drop 1 else p

/-- `proxy_endpoint` composed with the forwarder request construction. -/
def proxy_endpoint_request (cfg : Settings) (req : InRequest)
    (target_path : String) (user : Identity) : OutboundRequest :=
  forward_authenticated_user_request cfg req (stripLeadingSlashOnce target_path) user

/-- How the upstream call inside `forward_authenticated_user` can end:
a reply, an `httpx.TimeoutException`, another `httpx.RequestError`, or an
unexpected exception; the failure constructors carry `str(e)`. -/
inductive UpstreamOutcome where
  | reply : Nat → String → String → UpstreamOutcome
  | timeoutExc : String → UpstreamOutcome
  | requestErrorExc : String → UpstreamOutcome
  | otherExc : String → UpstreamOutcome
deriving Repr, DecidableEq

/-- The `except` chain of `forward_authenticated_user` (`app/cores.py`
lines 98-119): the `HTTPException` produced for each failed outcome
(`none` on a reply).  `httpx.TimeoutException` is matched before the
broader `httpx.RequestError`. -/
def forwardFailureToHttp : UpstreamOutcome → Option HTTPError
  | UpstreamOutcome.reply _ _ _ => none
  | UpstreamOutcome.timeoutExc _ =>
    some ⟨504, "Target service did not respond in time."⟩
  | UpstreamOutcome.requestErrorExc e =>
    some ⟨502, "Failed to connect to the target service: " ++ e⟩
  | UpstreamOutcome.otherExc e =>
    some ⟨500, "Proxy error: " ++ e⟩

/-- A concrete configuration used by the concrete instances below. -/
def cfg1 : Settings :=
  { SUPABASE_JWT_ISSUER := "https://proj.supabase.co/auth/v1"
    SUPABASE_JWT_AUDIENCE := "authenticated"
    JWT_EXPIRES_IN := 3600
    JWT_REFRESH_EXPIRES_IN_DAYS := 30
    PROXY_TARGET_URL := "http://up:9000"
    privateKeyId := 7
    privateKid := "kid-1" }

/-- The issuer key set matching `cfg1`. -/
def jwks1 : Jwks := [⟨"kid-1", 7⟩]

/-- A JWKS cache already populated with `jwks1`. -/
def st1 : JwksState := { cache := some jwks1, fetchCount := 0 }

/-- A genuine refresh token issued by the gateway at time 0 under session
`sess-1` (30-day lifetime). -/
def refreshTok1 : Token :=
  generate_refresh_token cfg1 0 "sess-1" "user-1" none 30

/-- A genuine access token issued by the gateway at time 0 (3600-second
lifetime); its `token_type` claim is absent. -/
def accessTok1 : Token :=
  generate_access_token cfg1 0 "sess-1" (some "u1") (some "u1@x.com")
    "authenticated" none none (some "sess-1") 3600

/-- An attacker-forged refresh-shaped token: unknown signing key (id 999),
header algorithm `HS256`, expired (`exp = 500`), foreign audience and
issuer — but carrying `token_type = "refresh"`. -/
def forgedRefresh : Token :=
  { headerKid := some "kid-1"
    alg := "HS256"
    payload :=
      { iss := "https://evil.example"
        sub := some "mallory"
        aud := "evil-aud"
        exp := 500
        iat := 0
        session_id := some "sess-evil"
        token_type := some "refresh" }
    sigKeyId := 999 }

/-- A genuine access token whose expiry (995) lies within ten seconds of
the verification clock used below (1000). -/
def nearExpiredTok : Token :=
  generate_access_token cfg1 0 "sid-5" (some "u1") (some "u1@x.com")
    "authenticated" none none (some "sid-5") 995

/-- A populated JWKS cache lacking `kid-b`. -/
def stC3 : JwksState := { cache := some [⟨"kid-a", 1⟩], fetchCount := 0 }

/-- The remote key set after the issuer rotated in `kid-b`. -/
def remoteC3 : Option Jwks := some [⟨"kid-a", 1⟩, ⟨"kid-b", 2⟩]

/-- A concrete inbound request carrying headers that must be dropped. -/
def req6 : InRequest :=
  { method := "GET"
    query_params := [("page", "2")]
    headers := [("host", "gw.local"), ("content-length", "0"),
                ("accept", "application/json")]
    body := "" }

/-- A verified identity whose token had no `email` claim: `verify_token`
materializes the key with value null. -/
def user6 : Identity :=
  { sub := some "user-1"
    email := none
    role := some "authenticated"
    aud := some "authenticated"
    iss := some "https://proj.supabase.co/auth/v1"
    exp := some 3600
    iat := some 0
    user_metadata := []
    app_metadata := []
    session_id := some "sess-1" }

/-- C1. The spec requires the presented refresh token to be verified
(signature, expiry, audience, issuer) before being exchanged.  The code
decodes it with `verify_signature=False` — disabling all four checks —
so a token the verifier itself rejects (forged key, wrong algorithm,
expired, foreign audience and issuer) is still exchanged for a fresh
access token. -/
theorem refresh_exchanges_unverified_token :
    (verify_token cfg1 none st1 1000000 forgedRefresh).1.isOk = false ∧
    (generate_access_token_from_refresh_token cfg1 1000000 "fresh-1" none
      forgedRefresh).isOk = true :=
  ⟨rfl, rfl⟩

/-- C2. The spec requires token-type checks in both directions.  The
refresh endpoint does reject an access token (`token_type` absent), but
`verify_token` performs no token-type check at all: a genuine refresh
token presented as a bearer token verifies successfully. -/
theorem verify_accepts_refresh_token :
    refreshTok1.payload.token_type = some "refresh" ∧
    (verify_token cfg1 none st1 1000 refreshTok1).1.isOk = true ∧
    (generate_access_token_from_refresh_token cfg1 1000 "fresh-2" none
      accessTok1).isOk = false :=
  ⟨rfl, rfl, rfl⟩

/-- C3 counterexample. The rotated-in key `kid-b` is present in the
remote key set, so the claimed single re-fetch would find it; yet the
call fails with the unknown-key error having performed zero fetches —
the `lru_cache` result is never refreshed on a miss. -/
theorem getPublicKey_no_refetch_counterexample :
    findJwk [⟨"kid-a", 1⟩, ⟨"kid-b", 2⟩] "kid-b" = some 2 ∧
    (get_public_key_by_kid remoteC3 stC3 "kid-b").1 =
      Except.error "No JWK found for kid: kid-b" ∧
    (get_public_key_by_kid remoteC3 stC3 "kid-b").2.fetchCount = 0 :=
  ⟨rfl, rfl, rfl⟩

/-- C5 counterexample. A token whose `exp` (995) is within ten seconds
of the verification clock (1000) is rejected as expired: PyJWT is called
without a leeway argument, so its leeway is 0, not the claimed small
window. -/
theorem verify_zero_leeway_counterexample :
    nearExpiredTok.payload.exp = 995 ∧
    (verify_token cfg1 none st1 1000 nearExpiredTok).1 =
      Except.error ⟨401, "Token has expired"⟩ :=
  ⟨rfl, rfl⟩

/-- C6 counterexample. For an identity whose email claim is absent, the
injected `X-User-Email` header is the string `None` (Python
`str(None)`), not the empty string the claim promises: `verify_token`
always materializes the key, so the `.get` default never applies. -/
theorem identity_header_none_counterexample :
    lookupHeader (proxy_endpoint_request cfg1 req6 "posts/1" user6).headers
      "X-User-Email" = some "None" ∧
    lookupHeader (proxy_endpoint_request cfg1 req6 "posts/1" user6).headers
      "X-User-Email" ≠ some "" :=
  ⟨rfl, by decide⟩

/-- C7 counterexample. A connection-level upstream failure is mapped to
502 with a detail string that embeds the exception text verbatim, and the
catch-all invalid-token path of `verify_token` embeds the library
exception message in its client-facing detail. -/
theorem badGateway_leaks_exception_text :
    forwardFailureToHttp
        (UpstreamOutcome.requestErrorExc "[Errno 111] Connection refused") =
      some ⟨502, "Failed to connect to the target service: [Errno 111] Connection refused"⟩ ∧
    (verify_token cfg1 none st1 1000 forgedRefresh).1 =
      Except.error ⟨401, "Invalid token: " ++ algNotAllowedMsg⟩ :=
  ⟨rfl, rfl⟩

/-- C3 amended. With a populated cache, `get_public_key_by_kid` consults
only the cached set: a kid absent from it produces the unknown-key error
immediately, with no re-fetch (the cache state, in particular its fetch
count, is unchanged) and no fallback key. -/
theorem getPublicKey_warm_cache_no_refetch (remote : Option Jwks)
    (st : JwksState) (jwks : Jwks) (kid : String)
    (hc : st.cache = some jwks) (hmiss : findJwk jwks kid = none) :
    (get_public_key_by_kid remote st kid).1 =
      Except.error ("No JWK found for kid: " ++ kid) ∧
    (get_public_key_by_kid remote st kid).2 = st := by
  unfold get_public_key_by_kid get_jwks
  rw [hc]
  simp [hmiss]

/-- Concrete instance of `getPublicKey_warm_cache_no_refetch`. -/
theorem getPublicKey_warm_cache_no_refetch_witness :
    (get_public_key_by_kid remoteC3 stC3 "kid-x").1 =
      Except.error ("No JWK found for kid: " ++ "kid-x") ∧
    (get_public_key_by_kid remoteC3 stC3 "kid-x").2 = stC3 :=
  getPublicKey_warm_cache_no_refetch remoteC3 stC3 [⟨"kid-a", 1⟩] "kid-x"
    rfl rfl

/-- C8. A refresh token carrying a (non-empty) session id S is exchanged
for an access token carrying the same session id: the refresh path never
changes the session id. -/
theorem refresh_preserves_session_id (cfg : Settings) (now : Int)
    (fresh : String) (sres : Option SupabaseUser) (tok : Token) (S : String)
    (htype : tok.payload.token_type = some "refresh")
    (hsid : tok.payload.session_id = some S) (hS : S ≠ "") :
    ∃ r, generate_access_token_from_refresh_token cfg now fresh sres tok =
        Except.ok r ∧
      r.access_token.payload.session_id = some S := by
  unfold generate_access_token_from_refresh_token
  simp only [htype, hsid]
  rw [if_neg (by simp)]
  refine ⟨_, rfl, ?_⟩
  simp [generate_access_token, hS]

/-- Concrete instance of `refresh_preserves_session_id`. -/
theorem refresh_preserves_session_id_witness :
    ∃ r, generate_access_token_from_refresh_token cfg1 500 "fresh-9" none
        refreshTok1 = Except.ok r ∧
      r.access_token.payload.session_id = some "sess-1" :=
  refresh_preserves_session_id cfg1 500 "fresh-9" none refreshTok1 "sess-1"
    rfl rfl (by decide)

/-- C9. Every successful refresh returns `expires_in = 3600` and an
access token whose lifetime (`exp - iat`) is 3600 seconds, for every
configuration — in particular regardless of `JWT_EXPIRES_IN`. -/
theorem refresh_expires_in_3600 (cfg : Settings) (now : Int)
    (fresh : String) (sres : Option SupabaseUser) (tok : Token)
    (htype : tok.payload.token_type = some "refresh") :
    ∃ r, generate_access_token_from_refresh_token cfg now fresh sres tok =
        Except.ok r ∧
      r.expires_in = 3600 ∧
      r.access_token.payload.exp - r.access_token.payload.iat = 3600 := by
  unfold generate_access_token_from_refresh_token
  simp only [htype]
  rw [if_neg (by simp)]
  refine ⟨_, rfl, rfl, ?_⟩
  simp only [generate_access_token]
  omega

/-- Concrete instance of `refresh_expires_in_3600`, with a configured
`JWT_EXPIRES_IN` of 3600 replaced at refresh time by the hard-coded
constant anyway. -/
theorem refresh_expires_in_3600_witness :
    ∃ r, generate_access_token_from_refresh_token cfg1 1000 "fresh-3" none
        refreshTok1 = Except.ok r ∧
      r.expires_in = 3600 ∧
      r.access_token.payload.exp - r.access_token.payload.iat = 3600 :=
  refresh_expires_in_3600 cfg1 1000 "fresh-3" none refreshTok1 rfl

/-- C10. When the Supabase lookup fails during refresh, the fallback
uses the claims of the refresh token itself; since refresh tokens carry
only subject, session id and token type, the degraded-mode access token
has a null email claim, role `authenticated`, and empty metadata maps. -/
theorem refresh_degraded_fallback (cfg : Settings) (now0 now : Int)
    (f0 f : String) (uid : String) (sid : Option String) (days : Int) :
    ∃ r, generate_access_token_from_refresh_token cfg now f none
        (generate_refresh_token cfg now0 f0 uid sid days) = Except.ok r ∧
      r.access_token.payload.email = none ∧
      r.access_token.payload.role = some "authenticated" ∧
      r.access_token.payload.user_metadata = some [] ∧
      r.access_token.payload.app_metadata = some [] := by
  exact ⟨_, rfl, rfl, rfl, rfl, rfl⟩

/-- C4. For every token pair issued by `generate_token_pair`, under the
standing assumptions of a deployment (the signing kid is non-empty, the
JWKS cache holds a set that maps the signing kid to the signing key, and
the access token has not yet expired), `verify_token` on the access token
succeeds and returns an identity whose subject is the issuance subject. -/
theorem verify_roundtrip_sub (cfg : Settings) (remote : Option Jwks)
    (st : JwksState) (jwks : Jwks) (now0 now : Int) (fresh : String)
    (uid : String) (email : Option String) (role : String)
    (um am : Option Meta) (ein rdays : Int)
    (hkid : cfg.privateKid ≠ "")
    (hc : st.cache = some jwks)
    (hfind : findJwk jwks cfg.privateKid = some cfg.privateKeyId)
    (hexp : now < now0 + ein) :
    ∃ ident,
      (verify_token cfg remote st now
        (generate_token_pair cfg now0 fresh uid email role um am ein
          rdays).access_token).1 = Except.ok ident ∧
      ident.sub = some uid := by
  have h2 : ¬ (now0 + ein ≤ now) := by omega
  simp only [verify_token, get_token_kid, generate_token_pair,
    generate_access_token, get_public_key_by_kid, get_jwks, jwtDecodeVerify,
    hc, hfind, hkid, h2, ne_eq, not_true_eq_false, not_false_eq_true,
    if_false, if_true, ite_false, ite_true, eq_self_iff_true]
  exact ⟨_, rfl, rfl⟩

/-- Concrete instance of `verify_roundtrip_sub`. -/
theorem verify_roundtrip_sub_witness :
    ∃ ident,
      (verify_token cfg1 none st1 50
        (generate_token_pair cfg1 0 "sess-1" "u1" (some "u1@x.com")
          "authenticated" none none 3600 30).access_token).1 =
        Except.ok ident ∧
      ident.sub = some "u1" :=
  verify_roundtrip_sub cfg1 none st1 jwks1 0 50 "sess-1" "u1"
    (some "u1@x.com") "authenticated" none none 3600 30 (by decide) rfl rfl
    (by decide)

/-- C5 amended. `verify_token` applies no leeway at all (PyJWT default
0): for a token whose kid resolves and whose algorithm and signature are
valid, the expiry rejection happens exactly when `exp` is at or before
`now` — a token one second past expiry is rejected, and no grace window
exists. -/
theorem verify_expiry_zero_leeway (cfg : Settings) (remote : Option Jwks)
    (st : JwksState) (jwks : Jwks) (now : Int) (tok : Token) (k : String)
    (hkid : tok.headerKid = some k) (hk : k ≠ "")
    (hc : st.cache = some jwks) (hfind : findJwk jwks k = some tok.sigKeyId)
    (halg : tok.alg = "ES256") :
    ((verify_token cfg remote st now tok).1 =
        Except.error ⟨401, "Token has expired"⟩ ↔ tok.payload.exp ≤ now) := by
  simp only [verify_token, get_token_kid, get_public_key_by_kid, get_jwks,
    jwtDecodeVerify, hkid, hc, hfind, halg, hk, ne_eq, not_true_eq_false,
    not_false_eq_true, if_false, if_true, ite_false, ite_true,
    eq_self_iff_true]
  by_cases he : tok.payload.exp ≤ now
  · simp [he]
  · simp only [he, if_false, ite_false, iff_false]
    split_ifs <;> simp

/-- Concrete instance of `verify_expiry_zero_leeway` at a token expired
by five seconds. -/
theorem verify_expiry_zero_leeway_witness :
    ((verify_token cfg1 none st1 1000 nearExpiredTok).1 =
        Except.error ⟨401, "Token has expired"⟩ ↔
      nearExpiredTok.payload.exp ≤ 1000) :=
  verify_expiry_zero_leeway cfg1 none st1 jwks1 1000 nearExpiredTok "kid-1"
    rfl (by decide) rfl rfl rfl

/-- Looking up a key just removed yields nothing. -/
theorem lookupHeader_removeHeader_self (hs : List (String × String))
    (k : String) : lookupHeader (removeHeader hs k) k = none := by
  induction hs with
  | nil => rfl
  | cons p rest ih =>
    by_cases h : p.1 = k
    · simpa [removeHeader, h] using ih
    · simpa [removeHeader, lookupHeader, h] using ih

/-- Removing one key does not affect the lookup of another. -/
theorem lookupHeader_removeHeader_ne (hs : List (String × String))
    (krem k : String) (h : krem ≠ k) :
    lookupHeader (removeHeader hs krem) k = lookupHeader hs k := by
  induction hs with
  | nil => rfl
  | cons p rest ih =>
    by_cases hp : p.1 = krem
    · simpa [removeHeader, lookupHeader, hp, h] using ih
    · by_cases hk : p.1 = k
      · simp [removeHeader, lookupHeader, hp, hk, h.symm]
      · simpa [removeHeader, lookupHeader, hp, hk] using ih

/-- Looking up a key just set yields the new value. -/
theorem lookupHeader_setHeader_self (hs : List (String × String))
    (k v : String) : lookupHeader (setHeader hs k v) k = some v := by
  induction hs with
  | nil => simp [setHeader, lookupHeader]
  | cons p rest ih =>
    by_cases h : p.1 = k
    · simp [setHeader, lookupHeader, h]
    · simpa [setHeader, lookupHeader, h] using ih

/-- Setting one key does not affect the lookup of another. -/
theorem lookupHeader_setHeader_ne (hs : List (String × String))
    (kset k v : String) (h : kset ≠ k) :
    lookupHeader (setHeader hs kset v) k = lookupHeader hs k := by
  induction hs with
  | nil => simp [setHeader, lookupHeader, h]
  | cons p rest ih =>
    by_cases hp : p.1 = kset
    · simp [setHeader, lookupHeader, hp, h]
    · by_cases hk : p.1 = k
      · simp [setHeader, lookupHeader, hp, hk, h.symm]
      · simpa [setHeader, lookupHeader, hp, hk] using ih

/-- C6 amended. The outbound request is built exactly as claimed — URL is
the upstream base plus the path with a leading slash stripped exactly
once, query parameters and body copied unchanged, the four transport
headers removed, and the three identity headers always present — except
that the identity header of an absent claim is the string `None`
(Python `str(None)`), not the empty string, as captured by `pyStr`. -/
theorem forward_request_construction (cfg : Settings) (req : InRequest)
    (path : String) (user : Identity) :
    (proxy_endpoint_request cfg req path user).method = req.method ∧
    (proxy_endpoint_request cfg req path user).url =
      cfg.PROXY_TARGET_URL ++ "/" ++
        (if path.startsWith "/" then path.drop 1 else path) ∧
    (proxy_endpoint_request cfg req path user).params = req.query_params ∧
    (proxy_endpoint_request cfg req path user).body = req.body ∧
    lookupHeader (proxy_endpoint_request cfg req path user).headers
      "host" = none ∧
    lookupHeader (proxy_endpoint_request cfg req path user).headers
      "content-length" = none ∧
    lookupHeader (proxy_endpoint_request cfg req path user).headers
      "connection" = none ∧
    lookupHeader (proxy_endpoint_request cfg req path user).headers
      "accept-encoding" = none ∧
    lookupHeader (proxy_endpoint_request cfg req path user).headers
      "X-User-ID" = some (pyStr user.sub) ∧
    lookupHeader (proxy_endpoint_request cfg req path user).headers
      "X-User-Email" = some (pyStr user.email) ∧
    lookupHeader (proxy_endpoint_request cfg req path user).headers
      "X-User-Role" = some (pyStr user.role) := by
  unfold proxy_endpoint_request forward_authenticated_user_request
    stripLeadingSlashOnce
  simp only [List.foldl]
  refine ⟨by trivial, by trivial, by trivial, by trivial,
    ?_, ?_, ?_, ?_, ?_, ?_, ?_⟩
  · rw [lookupHeader_setHeader_ne _ _ _ _ (by decide),
      lookupHeader_setHeader_ne _ _ _ _ (by decide),
      lookupHeader_setHeader_ne _ _ _ _ (by decide),
      lookupHeader_removeHeader_ne _ _ _ (by decide),
      lookupHeader_removeHeader_ne _ _ _ (by decide),
      lookupHeader_removeHeader_ne _ _ _ (by decide),
      lookupHeader_removeHeader_self]
  · rw [lookupHeader_setHeader_ne _ _ _ _ (by decide),
      lookupHeader_setHeader_ne _ _ _ _ (by decide),
      lookupHeader_setHeader_ne _ _ _ _ (by decide),
      lookupHeader_removeHeader_ne _ _ _ (by decide),
      lookupHeader_removeHeader_ne _ _ _ (by decide),
      lookupHeader_removeHeader_self]
  · rw [lookupHeader_setHeader_ne _ _ _ _ (by decide),
      lookupHeader_setHeader_ne _ _ _ _ (by decide),
      lookupHeader_setHeader_ne _ _ _ _ (by decide),
      lookupHeader_removeHeader_ne _ _ _ (by decide),
      lookupHeader_removeHeader_self]
  · rw [lookupHeader_setHeader_ne _ _ _ _ (by decide),
      lookupHeader_setHeader_ne _ _ _ _ (by decide),
      lookupHeader_setHeader_ne _ _ _ _ (by decide),
      lookupHeader_removeHeader_self]
  · rw [lookupHeader_setHeader_ne _ _ _ _ (by decide),
      lookupHeader_setHeader_ne _ _ _ _ (by decide),
      lookupHeader_setHeader_self]
  · rw [lookupHeader_setHeader_ne _ _ _ _ (by decide),
      lookupHeader_setHeader_self]
  · rw [lookupHeader_setHeader_self]

/-- C7 amended. The forwarder maps an upstream timeout to 504, a
connection-level failure to 502 and any other failure to 500, as
claimed; but only the 504 message is generic — the 502 and 500 details
embed the exception text after a fixed prompt.  Every verification error
is a 401 whose detail is drawn from a fixed set of messages, one of
which (the catch-all invalid-token case) embeds the library exception
message. -/
theorem forward_failure_mapping (e : String) :
    forwardFailureToHttp (UpstreamOutcome.timeoutExc e) =
      some ⟨504, "Target service did not respond in time."⟩ ∧
    forwardFailureToHttp (UpstreamOutcome.requestErrorExc e) =
      some ⟨502, "Failed to connect to the target service: " ++ e⟩ ∧
    forwardFailureToHttp (UpstreamOutcome.otherExc e) =
      some ⟨500, "Proxy error: " ++ e⟩ ∧
    (∀ (cfg : Settings) (remote : Option Jwks) (st : JwksState) (now : Int)
        (tok : Token) (err : HTTPError),
      (verify_token cfg remote st now tok).1 = Except.error err →
      err.status_code = 401 ∧
      (err.detail = "Could not validate credentials" ∨
       err.detail = "Token has expired" ∨
       err.detail = "Invalid token audience" ∨
       err.detail = "Invalid token issuer" ∨
       err.detail = "Invalid token: Signature verification failed" ∨
       err.detail = "Invalid token: " ++ algNotAllowedMsg)) := by
  refine ⟨rfl, rfl, rfl, ?_⟩
  intro cfg remote st now tok err hv
  unfold verify_token at hv
  repeat' split at hv
  any_goals cases hv
  · exact ⟨rfl, Or.inl rfl⟩
  · exact ⟨rfl, Or.inl rfl⟩
  · exact ⟨rfl, Or.inl rfl⟩
  · exact ⟨rfl, Or.inr (Or.inl rfl)⟩
  · exact ⟨rfl, Or.inr (Or.inr (Or.inl rfl))⟩
  · exact ⟨rfl, Or.inr (Or.inr (Or.inr (Or.inl rfl)))⟩
  · exact ⟨rfl, Or.inr (Or.inr (Or.inr (Or.inr (Or.inl rfl))))⟩
  · exact ⟨rfl, Or.inr (Or.inr (Or.inr (Or.inr (Or.inr rfl))))⟩

/-- Concrete instance of `forward_failure_mapping`. -/
theorem forward_failure_mapping_witness :
    forwardFailureToHttp (UpstreamOutcome.timeoutExc "ReadTimeout") =
      some ⟨504, "Target service did not respond in time."⟩ :=
  (forward_failure_mapping "ReadTimeout").1

end AuthGateway
